import Mathlib

/-!
Shallow embedding of the recruitment-pipeline orchestration core
(`agents/orchestrator_agent.py`, `agents/skills_matcher_agent.py`,
`agents/cultural_fit_agent.py`, `agents/resume_parser_agent.py`,
`agents/interview_scheduler_agent.py`, `config.py`).

Modelling conventions:
* Python floats are modelled as exact rationals (`ℚ`).
* Python dicts returned by agents are modelled as structures; a field read
  with `dict.get(key, default)` becomes an `Option` field read with `getD`.
  A dict that may be missing or empty (falsy) is modelled as an `Option`.
* `await` / `asyncio.gather(..., return_exceptions=True)` is modelled by
  passing, per task, its settled outcome `Except String τ` (the returned
  value, or the message of the exception the task raised); `gather`
  preserves input order, so outcomes are index-aligned with inputs.
* A call to the external text-generation service is modelled by an oracle
  argument `gen : Except String String` (response text, or raised error);
  each agent additionally returns a `Bool` recording whether the external
  call was reached.  JSON extraction from the response text is modelled by
  an oracle `String → Option payload`.
-/

/-- Python `round(x, 2)`: round a score to two decimal places.  (CPython
rounds the nearest representable binary float half-to-even; on exact
rationals away from half-way points — all values used below — this agrees
with rounding half up.) -/
def round2 (x : ℚ) : ℚ := ((round (x * 100) : ℤ) : ℚ) / 100

/-- The agent-configuration block of `config.py` (only the numeric fields the
orchestration core reads; API keys, SMTP and storage settings are I/O-only). -/
structure Config where
  SKILLS_MATCH_THRESHOLD : ℚ
  CULTURAL_FIT_THRESHOLD : ℚ
  SKILLS_WEIGHT : ℚ
  CULTURAL_FIT_WEIGHT : ℚ
  EXPERIENCE_WEIGHT : ℚ
deriving DecidableEq

/-- The global `config` instance with the env-var defaults of `config.py`
(`70`, `65`, `0.6`, `0.3`, `0.1`). -/
def config : Config :=
  { SKILLS_MATCH_THRESHOLD := 70
    CULTURAL_FIT_THRESHOLD := 65
    SKILLS_WEIGHT := 6 / 10
    CULTURAL_FIT_WEIGHT := 3 / 10
    EXPERIENCE_WEIGHT := 1 / 10 }

/-- `personal_info` sub-dict of parsed candidate data. -/
structure PersonalInfo where
  name : Option String
  email : Option String
  phone : Option String
deriving DecidableEq, Repr

/-- A work-experience entry is an opaque payload for the core: only the
number of entries is ever read (`len(work_experience)`). -/
abbrev WorkItem := String

/-- The job-description dict is an opaque payload for the core: it is only
checked for emptiness and serialized into prompts. -/
abbrev JobDescription := String

/-- The company-culture dict is an opaque payload for the core. -/
abbrev CompanyCulture := String

/-- Structured candidate data produced by the resume parser. -/
structure CandidateData where
  personal_info : Option PersonalInfo
  work_experience : List WorkItem
  education : List String
  skills : List String
  certifications : List String
deriving DecidableEq, Repr

/-- The all-defaults candidate-data value, modelling the empty dict default
of `candidate.get('candidate_data', {})`. -/
def CandidateData.empty : CandidateData :=
  { personal_info := none, work_experience := [], education := [],
    skills := [], certifications := [] }

/-- Result dict of `SkillsMatcherAgent.process`.  Success dicts carry
`match_score := some _`; error dicts have no `match_score` key (`none`). -/
structure SkillsResult where
  status : String
  match_score : Option ℚ
  matched_skills : List String
  missing_skills : List String
  transferable_skills : List String
  rationale : String
  recommendation : Option String
  message : Option String
  raw_response : Option String
deriving DecidableEq, Repr

/-- Result dict of `CulturalFitAgent.process`.  Success dicts carry
`cultural_fit_score := some _`; error dicts have no such key (`none`). -/
structure CulturalResult where
  status : String
  cultural_fit_score : Option ℚ
  dimensional_scores : List (String × ℚ)
  rationale : String
  message : Option String
  raw_response : Option String
deriving DecidableEq, Repr

/-- Result dict of `ResumeParserAgent.process`.  (`confidence_scores` is
omitted: no modelled component reads it.) -/
structure ParserOutput where
  status : String
  candidate_data : Option CandidateData
  message : Option String
deriving DecidableEq, Repr

/-- Element of the Phase-1 output list `parsed_candidates`: the parser's
dict spread together with `resume_index` and `id` on success, or the
orchestrator-built error dict (which has no `id` key) on a raised task. -/
structure ParsedCandidate where
  status : String
  resume_index : Nat
  id : Option String
  error : Option String
  candidate_data : Option CandidateData
  message : Option String
deriving DecidableEq, Repr

/-- Combined dict built by `OrchestratorAgent._evaluate_single_candidate`. -/
structure EvaluatedCandidate where
  id : Option String
  resume_index : Option Nat
  candidate_data : CandidateData
  skills_evaluation : SkillsResult
  cultural_evaluation : CulturalResult
deriving DecidableEq, Repr

/-- Record built per candidate by `OrchestratorAgent._rank_candidates`. -/
structure RankedCandidate where
  id : Option String
  candidate_data : CandidateData
  name : String
  email : String
  phone : String
  overall_score : ℚ
  skills_match_score : ℚ
  cultural_fit_score : ℚ
  experience_score : ℚ
  tier : String
  matched_skills : List String
  missing_skills : List String
  skills_rationale : String
  cultural_rationale : String
  dimensional_scores : List (String × ℚ)
  recommendation : String
deriving DecidableEq, Repr

namespace OrchestratorAgent

/-- `OrchestratorAgent._get_years_of_experience`: twice the number of
work-experience entries. -/
def get_years_of_experience (candidate_data : CandidateData) : ℚ :=
  (candidate_data.work_experience.length : ℚ) * 2

/-- `OrchestratorAgent._determine_tier`: bucket the 0–1 overall score after
scaling it to a 0–100 percentage. -/
def determine_tier (overall_score : ℚ) : String :=
  let percentage := overall_score * 100
  if 85 ≤ percentage then "strong_match"
  else if 70 ≤ percentage then "moderate_match"
  else "weak_match"

/-- Loop body of `OrchestratorAgent._rank_candidates`: build one ranked
record from one evaluated candidate. -/
def rank_one (candidate : EvaluatedCandidate) : RankedCandidate :=
  let skills_eval := candidate.skills_evaluation
  let cultural_eval := candidate.cultural_evaluation
  let candidate_data := candidate.candidate_data
  let skills_score := skills_eval.match_score.getD 0
  let cultural_score := cultural_eval.cultural_fit_score.getD 0
  let years_exp := get_years_of_experience candidate_data
  let exp_score := min (years_exp / 10) 1
  let overall_score :=
    skills_score * config.SKILLS_WEIGHT +
    cultural_score * config.CULTURAL_FIT_WEIGHT +
    exp_score * config.EXPERIENCE_WEIGHT
  { id := candidate.id
    candidate_data := candidate_data
    name := (candidate_data.personal_info.bind (·.name)).getD "Unknown"
    email := (candidate_data.personal_info.bind (·.email)).getD ""
    phone := (candidate_data.personal_info.bind (·.phone)).getD ""
    overall_score := round2 (overall_score * 100)
    skills_match_score := round2 (skills_score * 100)
    cultural_fit_score := round2 (cultural_score * 100)
    experience_score := round2 (exp_score * 100)
    tier := determine_tier overall_score
    matched_skills := skills_eval.matched_skills
    missing_skills := skills_eval.missing_skills
    skills_rationale := skills_eval.rationale
    cultural_rationale := cultural_eval.rationale
    dimensional_scores := cultural_eval.dimensional_scores
    recommendation := skills_eval.recommendation.getD "weak_match" }

/-- The un-rounded weighted overall score (0–1 scale): the local variable
`overall_score` of `_rank_candidates` before `round(… * 100, 2)`. -/
def overall_raw (candidate : EvaluatedCandidate) : ℚ :=
  candidate.skills_evaluation.match_score.getD 0 * config.SKILLS_WEIGHT +
  candidate.cultural_evaluation.cultural_fit_score.getD 0 * config.CULTURAL_FIT_WEIGHT +
  min (get_years_of_experience candidate.candidate_data / 10) 1 * config.EXPERIENCE_WEIGHT

/-- `OrchestratorAgent._rank_candidates`: build all records, then
`ranked.sort(key=lambda x: x['overall_score'], reverse=True)` — a stable
descending sort on the (rounded) `overall_score` field. -/
def rank_candidates (candidates : List EvaluatedCandidate) : List RankedCandidate :=
  (candidates.map rank_one).mergeSort fun a b =>
    decide (b.overall_score ≤ a.overall_score)

/-- `OrchestratorAgent._filter_qualified_candidates`. -/
def filter_qualified_candidates (ranked_candidates : List RankedCandidate) :
    List RankedCandidate :=
  let qualified := ranked_candidates.filter fun candidate =>
    decide (config.SKILLS_MATCH_THRESHOLD ≤ candidate.skills_match_score) &&
    decide (config.CULTURAL_FIT_THRESHOLD ≤ candidate.cultural_fit_score)
  let strong_matches := qualified.filter fun c => c.tier == "strong_match"
  if strong_matches.isEmpty then
    let top_20_percent := max 1 (qualified.length / 5)
    qualified.take top_20_percent
  else
    strong_matches

end OrchestratorAgent

namespace SkillsMatcherAgent

/-- Parsed JSON payload of the skills-matcher model response, with the
defaults of the `match_result.get(...)` reads already applied. -/
structure MatchPayload where
  overall_match_percentage : ℚ
  matched_skills : List String
  missing_skills : List String
  transferable_skills : List String
  rationale : String
deriving DecidableEq, Repr

/-- Input dict of `SkillsMatcherAgent.process`; `none` models a missing or
empty (falsy) dict. -/
structure Input where
  candidate_data : Option CandidateData
  job_description : Option JobDescription
deriving DecidableEq, Repr

/-- `SkillsMatcherAgent._determine_recommendation`. -/
def determine_recommendation (match_percentage : ℚ) : String :=
  if 85 ≤ match_percentage then "strong_match"
  else if 70 ≤ match_percentage then "moderate_match"
  else "weak_match"

/-- `SkillsMatcherAgent.process`.  `gen` is the settled outcome of the
external `_generate_response` call; `extract` models markdown-fence
stripping plus `json.loads` on the response text.  The returned `Bool`
records whether the external call was reached. -/
def process (input : Input) (gen : Except String String)
    (extract : String → Option MatchPayload) : SkillsResult × Bool :=
  match input.candidate_data, input.job_description with
  | some _, some _ =>
    match gen with
    | .error e =>
      ({ status := "error", match_score := none, matched_skills := [],
         missing_skills := [], transferable_skills := [], rationale := "",
         recommendation := none, message := some e, raw_response := none }, true)
    | .ok response =>
      match extract response with
      | none =>
        ({ status := "error", match_score := none, matched_skills := [],
           missing_skills := [], transferable_skills := [], rationale := "",
           recommendation := none,
           message := some "Failed to parse response",
           raw_response := some response }, true)
      | some match_result =>
        ({ status := "success",
           match_score := some (match_result.overall_match_percentage / 100),
           matched_skills := match_result.matched_skills,
           missing_skills := match_result.missing_skills,
           transferable_skills := match_result.transferable_skills,
           rationale := match_result.rationale,
           recommendation :=
             some (determine_recommendation match_result.overall_match_percentage),
           message := none, raw_response := none }, true)
  | _, _ =>
    ({ status := "error", match_score := none, matched_skills := [],
       missing_skills := [], transferable_skills := [], rationale := "",
       recommendation := none,
       message := some "Missing required input data", raw_response := none },
     false)

end SkillsMatcherAgent

namespace CulturalFitAgent

/-- Parsed JSON payload of the cultural-fit model response, with the
defaults of the `fit_result.get(...)` reads already applied. -/
structure FitPayload where
  overall_cultural_fit_score : ℚ
  dimensional_scores : List (String × ℚ)
  rationale : String
deriving DecidableEq, Repr

/-- Input dict of `CulturalFitAgent.process`; `none` models a missing or
empty (falsy) dict. -/
structure Input where
  candidate_data : Option CandidateData
  company_culture : Option CompanyCulture
  job_description : Option JobDescription
deriving DecidableEq, Repr

/-- `CulturalFitAgent.process`.  Note the source guards only on
`candidate_data`; an empty `company_culture` is replaced by a profile
synthesized from the job description (`_extract_culture_from_jd`), which
together with the candidate background only feeds the prompt that the
`gen` oracle abstracts.  The returned `Bool` records whether the external
call was reached. -/
def process (input : Input) (gen : Except String String)
    (extract : String → Option FitPayload) : CulturalResult × Bool :=
  match input.candidate_data with
  | none =>
    ({ status := "error", cultural_fit_score := none, dimensional_scores := [],
       rationale := "", message := some "Missing candidate data",
       raw_response := none }, false)
  | some _ =>
    match gen with
    | .error e =>
      ({ status := "error", cultural_fit_score := none, dimensional_scores := [],
         rationale := "", message := some e, raw_response := none }, true)
    | .ok response =>
      match extract response with
      | none =>
        ({ status := "error", cultural_fit_score := none,
           dimensional_scores := [], rationale := "",
           message := some "Failed to parse response",
           raw_response := some response }, true)
      | some fit_result =>
        ({ status := "success",
           cultural_fit_score := some (fit_result.overall_cultural_fit_score / 100),
           dimensional_scores := fit_result.dimensional_scores,
           rationale := fit_result.rationale,
           message := none, raw_response := none }, true)

end CulturalFitAgent

namespace ResumeParserAgent

/-- `ResumeParserAgent.process`.  `resume_content` is the (possibly empty)
resume text; `gen` is the settled outcome of the external call; `extract`
models fence stripping plus `json.loads`.  The returned `Bool` records
whether the external call was reached. -/
def process (resume_content : String) (gen : Except String String)
    (extract : String → Option CandidateData) : ParserOutput × Bool :=
  if resume_content = "" then
    ({ status := "error", candidate_data := none,
       message := some "No resume content provided" }, false)
  else
    match gen with
    | .error e =>
      ({ status := "error", candidate_data := none, message := some e }, true)
    | .ok response =>
      match extract response with
      | none =>
        ({ status := "error", candidate_data := none,
           message := some "Failed to parse response" }, true)
      | some candidate_data =>
        ({ status := "success", candidate_data := some candidate_data,
           message := none }, true)

end ResumeParserAgent

namespace OrchestratorAgent

/-- Derived candidate identifier `f"candidate_{idx}"`. -/
def candidate_id (idx : Nat) : String := "candidate_" ++ toString idx

/-- Loop body of `_parse_resumes_parallel` over the settled gather results:
on an exception build the orchestrator error dict (no `id` key), on a
returned parser dict spread it and attach `resume_index` and `id`. -/
def parse_combine (idx : Nat) (result : Except String ParserOutput) :
    ParsedCandidate :=
  match result with
  | .error e =>
    { status := "error", resume_index := idx, id := none, error := some e,
      candidate_data := none, message := none }
  | .ok r =>
    { status := r.status, resume_index := idx, id := some (candidate_id idx),
      error := none, candidate_data := r.candidate_data, message := r.message }

/-- `OrchestratorAgent._parse_resumes_parallel`, as a function of the
settled outcomes of the per-resume parse tasks (index-aligned, as
`asyncio.gather(..., return_exceptions=True)` preserves input order). -/
def parse_resumes_parallel (results : List (Except String ParserOutput)) :
    List ParsedCandidate :=
  results.enum.map fun p => parse_combine p.1 p.2

/-- `OrchestratorAgent._evaluate_single_candidate`: combine a parsed
candidate with the result pair of its two (concurrently run) agent calls. -/
def evaluate_single_candidate (candidate : ParsedCandidate)
    (pair : SkillsResult × CulturalResult) : EvaluatedCandidate :=
  { id := candidate.id
    resume_index := some candidate.resume_index
    candidate_data := candidate.candidate_data.getD CandidateData.empty
    skills_evaluation := pair.1
    cultural_evaluation := pair.2 }

/-- `OrchestratorAgent._evaluate_candidates_parallel`: `evalRun i` is the
settled outcome of candidate `i`'s evaluation-pair task (`.error` when the
coroutine raised).  A raised task's candidate is dropped; a returned pair is
combined with its candidate. -/
def evaluate_candidates_parallel (candidates : List ParsedCandidate)
    (evalRun : Nat → Except String (SkillsResult × CulturalResult)) :
    List EvaluatedCandidate :=
  candidates.enum.filterMap fun p =>
    match evalRun p.1 with
    | .error _ => none
    | .ok pair => some (evaluate_single_candidate p.2 pair)

end OrchestratorAgent

/-- A free calendar slot as returned by the calendar service (`stop` models
the `'end'` key; times are abstract timestamps). -/
structure Slot where
  start : Nat
  stop : Nat
deriving DecidableEq, Repr

/-- The event dict returned by `calendar_service.create_event`; only its
`'id'` key is read. -/
structure CalendarEvent where
  id : Option String
deriving DecidableEq, Repr

/-- Settled outcomes of the external calls made for one candidate in the
scheduling loop: the slot list returned by `_get_available_slots` (that
helper catches calendar read errors and returns `[]`, so an error is an
empty list here), the `create_event` outcome, and the `send_email`
outcome. -/
structure SchedStep where
  slots : List Slot
  create_event : Except String CalendarEvent
  send_email : Except String Unit
deriving Repr

/-- One scheduled-interview record appended to `scheduled_slots`. -/
structure ScheduledSlot where
  candidate_id : Option String
  candidate_name : String
  candidate_email : String
  start_time : Nat
  end_time : Nat
  calendar_event_id : Option String
  status : String
deriving DecidableEq, Repr

/-- Result dict of `InterviewSchedulerAgent.process`. -/
structure SchedResult where
  status : String
  scheduled_slots : List ScheduledSlot
  total_scheduled : Option Nat
  total_attempted : Option Nat
  message : Option String
deriving DecidableEq, Repr

namespace InterviewSchedulerAgent

/-- `InterviewSchedulerAgent._send_interview_invitation`: the helper wraps
the `send_email` call in its own `try/except`, so a failed send is logged
and swallowed — it never reaches the scheduling loop. -/
def send_interview_invitation (emailOutcome : Except String Unit) : Unit :=
  match emailOutcome with
  | .ok _ => ()
  | .error _ => ()

/-- Body of the per-candidate `try` block of the scheduling loop: `none`
models `continue` (no free slot, or `create_event` raised); email failure
does not prevent the record from being appended. -/
def schedule_one (candidate : RankedCandidate) (step : SchedStep) :
    Option ScheduledSlot :=
  match step.slots with
  | [] => none
  | selected_slot :: _ =>
    match step.create_event with
    | .error _ => none
    | .ok calendar_event =>
      let _invite := send_interview_invitation step.send_email
      some { candidate_id := candidate.id
             candidate_name := candidate.name
             candidate_email := candidate.email
             start_time := selected_slot.start
             end_time := selected_slot.stop
             calendar_event_id := calendar_event.id
             status := "scheduled" }

/-- `InterviewSchedulerAgent.process`: `env i` gives the settled external
outcomes for the `i`-th candidate in the loop.  (The outermost `try/except`
of the source is unreachable here: every per-candidate failure is already
handled inside the loop.) -/
def process (candidates : List RankedCandidate) (interviewer_email : String)
    (env : Nat → SchedStep) : SchedResult :=
  let _ := interviewer_email
  if candidates.isEmpty then
    { status := "success", scheduled_slots := [], total_scheduled := none,
      total_attempted := none,
      message := some "No candidates provided for scheduling" }
  else
    let scheduled_slots :=
      candidates.enum.filterMap fun p => schedule_one p.2 (env p.1)
    { status := "success", scheduled_slots := scheduled_slots,
      total_scheduled := some scheduled_slots.length,
      total_attempted := some candidates.length, message := none }

end InterviewSchedulerAgent

/-- Input dict of `OrchestratorAgent.process`; resume payloads are opaque
here (their content only reaches the parser tasks, whose settled outcomes
the pipeline environment supplies). -/
structure OrchestratorInput where
  resumes : List String
  job_description : Option JobDescription
  company_culture : Option CompanyCulture
  interviewer_email : String

/-- The `processing_summary` sub-dict of the orchestrator success result. -/
structure Summary where
  total_resumes : Nat
  successfully_parsed : Nat
  qualified_candidates : Nat
  interviews_scheduled : Nat
deriving DecidableEq, Repr

/-- Top-level result dict of `OrchestratorAgent.process`.  Error results
carry no `processing_summary` / `scheduled_interviews` keys (`none`). -/
structure FinalResult where
  status : String
  message : Option String
  ranked_candidates : List RankedCandidate
  processing_summary : Option Summary
  scheduled_interviews : Option (List ScheduledSlot)
deriving DecidableEq, Repr

/-- Instrumentation recording how much pipeline work a `process` call
performed: number of parse tasks and evaluation tasks launched, whether the
ranking phase ran, and whether the scheduling agent was invoked. -/
structure Trace where
  parse_tasks : Nat
  eval_tasks : Nat
  ranking_run : Bool
  scheduler_invoked : Bool
deriving DecidableEq, Repr

/-- The trace of a `process` call that attempted no work. -/
def Trace.idle : Trace :=
  { parse_tasks := 0, eval_tasks := 0, ranking_run := false,
    scheduler_invoked := false }

/-- Settled outcomes of every external task a pipeline run may launch:
`parseRun i` for resume `i`'s parse task, `evalRun i` for valid candidate
`i`'s evaluation-pair task, `sched i` for the scheduling loop's `i`-th
candidate. -/
structure PipelineEnv where
  parseRun : Nat → Except String ParserOutput
  evalRun : Nat → Except String (SkillsResult × CulturalResult)
  sched : Nat → SchedStep

namespace OrchestratorAgent

/-- `OrchestratorAgent.process`: input validation, then the four phases.
All per-item failures arrive as data (settled `Except` outcomes), mirroring
`gather(..., return_exceptions=True)` and the agents' own `try/except`
blocks, so the outermost `try/except` of the source has nothing left to
catch and the function is total: every call returns a result dict.  The
returned `Trace` records the work performed. -/
def process (input : OrchestratorInput) (env : PipelineEnv) :
    FinalResult × Trace :=
  if input.resumes.isEmpty then
    ({ status := "error", message := some "No resumes provided",
       ranked_candidates := [], processing_summary := none,
       scheduled_interviews := none }, Trace.idle)
  else if input.job_description.isNone then
    ({ status := "error", message := some "No job description provided",
       ranked_candidates := [], processing_summary := none,
       scheduled_interviews := none }, Trace.idle)
  else
    let parsed_candidates :=
      parse_resumes_parallel ((List.range input.resumes.length).map env.parseRun)
    let valid_candidates := parsed_candidates.filter fun c => c.status == "success"
    let evaluated_candidates :=
      evaluate_candidates_parallel valid_candidates env.evalRun
    let ranked_candidates := rank_candidates evaluated_candidates
    let qualified_candidates := filter_qualified_candidates ranked_candidates
    let run_scheduler :=
      !qualified_candidates.isEmpty && input.interviewer_email != ""
    let scheduled_slots :=
      if run_scheduler then
        (InterviewSchedulerAgent.process qualified_candidates
          input.interviewer_email env.sched).scheduled_slots
      else []
    ({ status := "success", message := none,
       ranked_candidates := ranked_candidates,
       processing_summary := some
         { total_resumes := input.resumes.length
           successfully_parsed := valid_candidates.length
           qualified_candidates := qualified_candidates.length
           interviews_scheduled := scheduled_slots.length }
       scheduled_interviews := some scheduled_slots },
     { parse_tasks := input.resumes.length
       eval_tasks := valid_candidates.length
       ranking_run := true
       scheduler_invoked := run_scheduler })

end OrchestratorAgent

/-- Spec-side qualification predicate of C1: both scores meet the default
thresholds, written with the literal values 70 and 65 (0–100 scale). -/
def specQualifies (c : RankedCandidate) : Bool :=
  decide ((70 : ℚ) ≤ c.skills_match_score) && decide ((65 : ℚ) ≤ c.cultural_fit_score)

/-- Sample parsed personal info used in concrete runs. -/
def sampleInfo : PersonalInfo :=
  { name := some "Ada Lovelace", email := some "ada@example.com", phone := none }

/-- Sample candidate data with an empty work history. -/
def sampleCD : CandidateData :=
  { personal_info := some sampleInfo, work_experience := [], education := [],
    skills := ["Python"], certifications := [] }

/-- A successful skills-matcher result with the given 0–1 match score. -/
def successSkills (q : ℚ) : SkillsResult :=
  { status := "success", match_score := some q, matched_skills := ["Python"],
    missing_skills := [], transferable_skills := [], rationale := "good",
    recommendation := some "strong_match", message := none, raw_response := none }

/-- A successful cultural-fit result with the given 0–1 fit score. -/
def successCultural (q : ℚ) : CulturalResult :=
  { status := "success", cultural_fit_score := some q, dimensional_scores := [],
    rationale := "fits", message := none, raw_response := none }

/-- An evaluated candidate over `sampleCD` with the given component scores. -/
def evalOf (s c : ℚ) : EvaluatedCandidate :=
  { id := some "candidate_0", resume_index := some 0, candidate_data := sampleCD,
    skills_evaluation := successSkills s, cultural_evaluation := successCultural c }

/-- A second evaluated candidate over the same data, distinct id. -/
def evalOf2 (s c : ℚ) : EvaluatedCandidate :=
  { evalOf s c with id := some "candidate_1", resume_index := some 1 }

/-- A sample successful parser dict. -/
def pOk : ParserOutput :=
  { status := "success", candidate_data := some sampleCD, message := none }

/-- A sample parsed cultural-fit payload. -/
def fitP : CulturalFitAgent.FitPayload :=
  { overall_cultural_fit_score := 80, dimensional_scores := [("teamwork", 80 / 100)],
    rationale := "collaborative" }

/-- A concrete strong-match ranked candidate. -/
def rcStrong : RankedCandidate :=
  { id := some "candidate_0", candidate_data := sampleCD, name := "Ada Lovelace",
    email := "ada@example.com", phone := "", overall_score := 91,
    skills_match_score := 95, cultural_fit_score := 90, experience_score := 40,
    tier := "strong_match", matched_skills := ["Python"], missing_skills := [],
    skills_rationale := "", cultural_rationale := "", dimensional_scores := [],
    recommendation := "strong_match" }

/-- A concrete moderate-match ranked candidate that passes both thresholds. -/
def rcModerate : RankedCandidate :=
  { rcStrong with
    id := some "candidate_1"
    name := "Grace Hopper"
    email := "grace@example.com"
    overall_score := 75
    skills_match_score := 75
    cultural_fit_score := 70
    tier := "moderate_match"
    recommendation := "moderate_match" }

/-- Scheduling-loop environment where everything succeeds. -/
def stepOk : SchedStep :=
  { slots := [{ start := 100, stop := 160 }],
    create_event := Except.ok { id := some "ev1" },
    send_email := Except.ok () }

/-- Scheduling-loop environment where only the invitation email fails. -/
def stepEmailFail : SchedStep :=
  { stepOk with send_email := Except.error "smtp down" }

/-- The Phase-1 element for a successfully parsed sample resume. -/
def pc1 : ParsedCandidate := OrchestratorAgent.parse_combine 0 (Except.ok pOk)

/-- The evaluation pair produced when both agents' external calls raise:
two error dicts, not exceptions. -/
def pairErr : SkillsResult × CulturalResult :=
  ((SkillsMatcherAgent.process
      { candidate_data := some sampleCD, job_description := some "jd" }
      (Except.error "api down") (fun _ => none)).1,
   (CulturalFitAgent.process
      { candidate_data := some sampleCD, company_culture := none,
        job_description := some "jd" }
      (Except.error "api down") (fun _ => none)).1)

/-- A pipeline environment used for concrete runs. -/
def envTrivial : PipelineEnv :=
  { parseRun := fun _ => Except.ok pOk,
    evalRun := fun _ => Except.ok pairErr,
    sched := fun _ => stepOk }

example :
    OrchestratorAgent.determine_tier (85 / 100) = "strong_match" := by
  norm_num [OrchestratorAgent.determine_tier]

example : round2 (9999 / 1000) = 10 := by norm_num [round2, round_eq]

example : round2 (84999 / 1000) = 85 := by norm_num [round2, round_eq]

theorem round_mono_of_le {x y : ℚ} (h : x ≤ y) : round x ≤ round y := by
  rw [round_eq, round_eq]
  exact Int.floor_mono (by linarith)

theorem round2_natCast (k : ℕ) : round2 (k : ℚ) = k := by
  unfold round2
  rw [show ((k : ℚ) * 100) = (((k * 100 : ℕ) : ℤ) : ℚ) by push_cast; ring,
    round_intCast]
  push_cast
  ring

theorem round2_bounds {x : ℚ} (h0 : 0 ≤ x) (h1 : x ≤ 100) :
    0 ≤ round2 x ∧ round2 x ≤ 100 := by
  unfold round2
  constructor
  · apply div_nonneg _ (by norm_num)
    have h : round (0 : ℚ) ≤ round (x * 100) := round_mono_of_le (by nlinarith)
    rw [round_zero] at h
    exact_mod_cast h
  · rw [div_le_iff₀ (by norm_num)]
    have h : round (x * 100) ≤ round ((10000 : ℕ) : ℚ) :=
      round_mono_of_le (by push_cast; nlinarith)
    rw [round_natCast] at h
    have h2 : ((round (x * 100) : ℤ) : ℚ) ≤ ((10000 : ℕ) : ℚ) := by exact_mod_cast h
    push_cast at h2 ⊢
    linarith

theorem determine_tier_chars (x : ℚ) :
    (OrchestratorAgent.determine_tier x = "strong_match" ↔ 85 ≤ x * 100) ∧
    (OrchestratorAgent.determine_tier x = "moderate_match" ↔
      70 ≤ x * 100 ∧ x * 100 < 85) ∧
    (OrchestratorAgent.determine_tier x = "weak_match" ↔ x * 100 < 70) := by
  unfold OrchestratorAgent.determine_tier
  simp only []
  split_ifs with h1 h2
  · refine ⟨⟨fun _ => h1, fun _ => rfl⟩, ⟨fun h => absurd h (by decide), ?_⟩,
      ⟨fun h => absurd h (by decide), fun h => absurd h1 (by linarith)⟩⟩
    rintro ⟨-, hlt⟩
    linarith
  · exact ⟨⟨fun h => absurd h (by decide), fun h => absurd h h1⟩,
      ⟨fun _ => ⟨h2, lt_of_not_le h1⟩, fun _ => rfl⟩,
      ⟨fun h => absurd h (by decide), fun h => absurd h2 (by linarith)⟩⟩
  · exact ⟨⟨fun h => absurd h (by decide), fun h => absurd h h1⟩,
      ⟨fun h => absurd h (by decide), fun h => absurd h.1 h2⟩,
      ⟨fun _ => lt_of_not_le h2, fun _ => rfl⟩⟩

theorem rank_one_overall_score (e : EvaluatedCandidate) :
    (OrchestratorAgent.rank_one e).overall_score =
      round2 (OrchestratorAgent.overall_raw e * 100) := rfl

theorem rank_one_tier (e : EvaluatedCandidate) :
    (OrchestratorAgent.rank_one e).tier =
      OrchestratorAgent.determine_tier (OrchestratorAgent.overall_raw e) := rfl

theorem overall_raw_bounds (e : EvaluatedCandidate)
    (h : 0 ≤ e.skills_evaluation.match_score.getD 0 ∧
      e.skills_evaluation.match_score.getD 0 ≤ 1 ∧
      0 ≤ e.cultural_evaluation.cultural_fit_score.getD 0 ∧
      e.cultural_evaluation.cultural_fit_score.getD 0 ≤ 1) :
    0 ≤ OrchestratorAgent.overall_raw e ∧ OrchestratorAgent.overall_raw e ≤ 1 := by
  obtain ⟨hs0, hs1, hc0, hc1⟩ := h
  have hm0 : (0 : ℚ) ≤
      min (OrchestratorAgent.get_years_of_experience e.candidate_data / 10) 1 :=
    le_min (by unfold OrchestratorAgent.get_years_of_experience; positivity)
      zero_le_one
  have hm1 : min (OrchestratorAgent.get_years_of_experience e.candidate_data / 10) 1
      ≤ 1 := min_le_right _ _
  unfold OrchestratorAgent.overall_raw
  have hc : config.SKILLS_WEIGHT = 6 / 10 := rfl
  have hc2 : config.CULTURAL_FIT_WEIGHT = 3 / 10 := rfl
  have hc3 : config.EXPERIENCE_WEIGHT = 1 / 10 := rfl
  rw [hc, hc2, hc3]
  constructor
  · positivity
  · nlinarith

theorem rank_one_experience_score (e : EvaluatedCandidate) :
    (OrchestratorAgent.rank_one e).experience_score =
      round2 (min (OrchestratorAgent.get_years_of_experience e.candidate_data / 10) 1
        * 100) := rfl

theorem rank_one_skills_match_score (e : EvaluatedCandidate) :
    (OrchestratorAgent.rank_one e).skills_match_score =
      round2 (e.skills_evaluation.match_score.getD 0 * 100) := rfl

theorem rank_one_cultural_fit_score (e : EvaluatedCandidate) :
    (OrchestratorAgent.rank_one e).cultural_fit_score =
      round2 (e.cultural_evaluation.cultural_fit_score.getD 0 * 100) := rfl

theorem round2_exp_exact (n : ℕ) :
    round2 (min ((n : ℚ) * 2 / 10) 1 * 100) = 100 * min (2 * (n : ℚ) / 10) 1 := by
  rcases le_total ((n : ℚ) * 2 / 10) 1 with h | h
  · rw [min_eq_left h, min_eq_left (by linarith : 2 * (n : ℚ) / 10 ≤ 1)]
    rw [show ((n : ℚ) * 2 / 10) * 100 = ((20 * n : ℕ) : ℚ) by push_cast; ring,
      round2_natCast]
    push_cast
    ring
  · rw [min_eq_right h, min_eq_right (by linarith : (1 : ℚ) ≤ 2 * (n : ℚ) / 10)]
    rw [one_mul, show (100 : ℚ) = ((100 : ℕ) : ℚ) by norm_num, round2_natCast]
    norm_num

theorem rank_le_trans (a b c : RankedCandidate)
    (h1 : decide (b.overall_score ≤ a.overall_score) = true)
    (h2 : decide (c.overall_score ≤ b.overall_score) = true) :
    decide (c.overall_score ≤ a.overall_score) = true := by
  simp only [decide_eq_true_eq] at h1 h2 ⊢
  exact le_trans h2 h1

theorem rank_le_total (a b : RankedCandidate) :
    (decide (b.overall_score ≤ a.overall_score) ||
      decide (a.overall_score ≤ b.overall_score)) = true := by
  simp [le_total]

theorem parse_get (results : List (Except String ParserOutput)) (i : Nat)
    (hi : i < results.length)
    (hi2 : i < (OrchestratorAgent.parse_resumes_parallel results).length) :
    (OrchestratorAgent.parse_resumes_parallel results).get ⟨i, hi2⟩ =
      OrchestratorAgent.parse_combine i (results.get ⟨i, hi⟩) := by
  simp only [OrchestratorAgent.parse_resumes_parallel, List.get_eq_getElem,
    List.getElem_map, List.enum_eq_enumFrom, List.getElem_enumFrom, Nat.zero_add]

theorem countP_enumFrom {α : Type} (q : α → Bool) (l : List α) (n : ℕ) :
    (l.enumFrom n).countP (fun p => q p.2) = l.countP q := by
  induction l generalizing n with
  | nil => rfl
  | cons a as ih => simp [List.enumFrom, List.countP_cons, ih]

theorem parsed_success_count (outs : List (Except String ParserOutput)) :
    ((OrchestratorAgent.parse_resumes_parallel outs).filter
        (fun c => c.status == "success")).length =
      outs.countP (fun o => match o with
        | Except.ok r => r.status == "success"
        | Except.error _ => false) := by
  rw [← List.countP_eq_length_filter]
  unfold OrchestratorAgent.parse_resumes_parallel
  rw [List.countP_map, List.enum_eq_enumFrom]
  rw [show ((fun c : ParsedCandidate => c.status == "success") ∘
      fun p : ℕ × Except String ParserOutput =>
        OrchestratorAgent.parse_combine p.1 p.2) =
      (fun p : ℕ × Except String ParserOutput => (fun o =>
        match o with
        | Except.ok r => r.status == "success"
        | Except.error _ => false) p.2) from ?_]
  · exact countP_enumFrom (fun o => match o with
      | Except.ok r => r.status == "success"
      | Except.error _ => false) outs 0
  · funext p
    rcases p with ⟨i, o⟩
    rcases o with e | r <;> rfl

/-- Claim C1: the qualification filter keeps exactly the candidates with
`skills_match_score ≥ 70` and `cultural_fit_score ≥ 65` (default
thresholds, 0–100 scale); if any qualified candidate has tier
strong_match, it returns exactly the strong_match members of the qualified
subset; otherwise it returns the first `max(1, ⌊qualified_count / 5⌋)`
qualified candidates in rank order, which is empty when no candidate
qualifies. -/
theorem C1_qualification_policy (ranked : List RankedCandidate) :
    ((∃ c ∈ ranked.filter specQualifies, c.tier = "strong_match") →
      OrchestratorAgent.filter_qualified_candidates ranked =
        (ranked.filter specQualifies).filter fun c => c.tier == "strong_match") ∧
    ((∀ c ∈ ranked.filter specQualifies, c.tier ≠ "strong_match") →
      OrchestratorAgent.filter_qualified_candidates ranked =
        (ranked.filter specQualifies).take
          (max 1 ((ranked.filter specQualifies).length / 5))) ∧
    (ranked.filter specQualifies = [] →
      OrchestratorAgent.filter_qualified_candidates ranked = []) := by
  have hfun : (fun candidate : RankedCandidate =>
      decide (config.SKILLS_MATCH_THRESHOLD ≤ candidate.skills_match_score) &&
      decide (config.CULTURAL_FIT_THRESHOLD ≤ candidate.cultural_fit_score)) =
      specQualifies := rfl
  unfold OrchestratorAgent.filter_qualified_candidates
  rw [hfun]
  refine ⟨?_, ?_, ?_⟩
  · rintro ⟨c, hc, htier⟩
    have hmem : c ∈ (ranked.filter specQualifies).filter
        (fun c => c.tier == "strong_match") :=
      List.mem_filter.mpr ⟨hc, by simp [htier]⟩
    have hne : ((ranked.filter specQualifies).filter
        (fun c => c.tier == "strong_match")).isEmpty = false :=
      List.isEmpty_eq_false.mpr (List.ne_nil_of_mem hmem)
    simp only [hne, Bool.false_eq_true, if_false]
  · intro h
    have hnil : ((ranked.filter specQualifies).filter
        (fun c => c.tier == "strong_match")) = [] := by
      refine List.filter_eq_nil_iff.mpr fun a ha => ?_
      simpa using h a ha
    simp only [hnil, List.isEmpty_nil, if_true]
  · intro h
    simp only [h, List.filter_nil, List.isEmpty_nil, if_true, List.take_nil]

theorem C1_qualification_policy_witness :
    OrchestratorAgent.filter_qualified_candidates [rcStrong, rcModerate] =
      (([rcStrong, rcModerate].filter specQualifies).filter
        fun c => c.tier == "strong_match") :=
  (C1_qualification_policy [rcStrong, rcModerate]).1
    ⟨rcStrong,
      List.mem_filter.mpr ⟨by simp, by norm_num [specQualifies, rcStrong]⟩,
      rfl⟩

/-- Claim C2 counterexample: with component scores 1 and 0.8333 (both in [0,1])
and no work history, the produced RankedCandidate has (rounded)
`overall_score = 85`, inside the claimed strong_match bucket [85,100], yet
`tier = "moderate_match"`: the tier is computed from the un-rounded score
84.999, so it is not a function of the record's `overall_score` field. -/
theorem C2_counterexample :
    ((OrchestratorAgent.rank_candidates [evalOf 1 (8333 / 10000)]).map
        fun c => (c.overall_score, c.tier)) = [(85, "moderate_match")] ∧
      "moderate_match" ≠ "strong_match" := by
  refine ⟨?_, by decide⟩
  norm_num [OrchestratorAgent.rank_candidates, OrchestratorAgent.rank_one,
    OrchestratorAgent.determine_tier, OrchestratorAgent.get_years_of_experience,
    round2, round_eq, config, evalOf, successSkills, successCultural, sampleCD]

/-- Claim C2 (amended): every ranked record has `overall_score ∈ [0,100]` (given
component scores in [0,1] and the default weights), and the `tier` field is
a pure function of the un-rounded weighted score (`overall_raw`, scaled to
0–100): strong_match iff it is ≥ 85, moderate_match iff in [70,85),
weak_match iff below 70 — the documented boundaries hold for the score
before the 2-decimal display rounding, which can differ from the reported
`overall_score` field by up to 0.005. -/
theorem C2_score_range_and_tier (es : List EvaluatedCandidate)
    (hs : ∀ e ∈ es, 0 ≤ e.skills_evaluation.match_score.getD 0 ∧
      e.skills_evaluation.match_score.getD 0 ≤ 1 ∧
      0 ≤ e.cultural_evaluation.cultural_fit_score.getD 0 ∧
      e.cultural_evaluation.cultural_fit_score.getD 0 ≤ 1) :
    ∀ r ∈ OrchestratorAgent.rank_candidates es,
      (0 ≤ r.overall_score ∧ r.overall_score ≤ 100) ∧
      ∃ e ∈ es, r = OrchestratorAgent.rank_one e ∧
        0 ≤ OrchestratorAgent.overall_raw e * 100 ∧
        OrchestratorAgent.overall_raw e * 100 ≤ 100 ∧
        (r.tier = "strong_match" ↔ 85 ≤ OrchestratorAgent.overall_raw e * 100) ∧
        (r.tier = "moderate_match" ↔
          70 ≤ OrchestratorAgent.overall_raw e * 100 ∧
          OrchestratorAgent.overall_raw e * 100 < 85) ∧
        (r.tier = "weak_match" ↔ OrchestratorAgent.overall_raw e * 100 < 70) := by
  intro r hr
  rw [OrchestratorAgent.rank_candidates, List.mem_mergeSort, List.mem_map] at hr
  obtain ⟨e, he, rfl⟩ := hr
  have hb := overall_raw_bounds e (hs e he)
  have h100 : 0 ≤ OrchestratorAgent.overall_raw e * 100 ∧
      OrchestratorAgent.overall_raw e * 100 ≤ 100 := by
    constructor <;> nlinarith [hb.1, hb.2]
  have hrb := round2_bounds h100.1 h100.2
  refine ⟨by rw [rank_one_overall_score]; exact hrb, e, he, rfl, h100.1, h100.2,
    ?_, ?_, ?_⟩ <;>
    rw [rank_one_tier] <;>
    simp [determine_tier_chars (OrchestratorAgent.overall_raw e)]

theorem C2_score_range_and_tier_witness :
    0 ≤ (OrchestratorAgent.rank_one (evalOf 1 (8333 / 10000))).overall_score ∧
    (OrchestratorAgent.rank_one (evalOf 1 (8333 / 10000))).overall_score ≤ 100 := by
  have h := C2_score_range_and_tier [evalOf 1 (8333 / 10000)]
    (by
      intro e he
      simp only [List.mem_singleton] at he
      subst he
      norm_num [evalOf, successSkills, successCultural])
    (OrchestratorAgent.rank_one (evalOf 1 (8333 / 10000)))
    (by simp [OrchestratorAgent.rank_candidates])
  exact h.1

/-- Claim C3 counterexample: with component scores 0 and 0.3333 and no work
history, the weighted overall score scaled by 100 is 9.999, but the output
record reports `overall_score = 10` (the value is rounded to two decimals),
so the record does not carry the score scaled by 100 exactly. -/
theorem C3_counterexample :
    ((OrchestratorAgent.rank_candidates [evalOf 0 (3333 / 10000)]).map
        fun c => c.overall_score) = [10] ∧
      OrchestratorAgent.overall_raw (evalOf 0 (3333 / 10000)) * 100 = 9999 / 1000 ∧
      (10 : ℚ) ≠ 9999 / 1000 := by
  refine ⟨?_, ?_, by norm_num⟩
  · norm_num [OrchestratorAgent.rank_candidates, OrchestratorAgent.rank_one,
      OrchestratorAgent.determine_tier, OrchestratorAgent.get_years_of_experience,
      round2, round_eq, config, evalOf, successSkills, successCultural, sampleCD]
  · norm_num [OrchestratorAgent.overall_raw, OrchestratorAgent.get_years_of_experience,
      config, evalOf, successSkills, successCultural, sampleCD]

/-- Claim C3 (amended): each ranked record is computed with
`experience_score = min(2 · #work_entries / 10, 1)` and
`overall_score = skills·0.6 + cultural·0.3 + experience·0.1`; the record
reports those values scaled by 100 and rounded to two decimal places (the
experience value, a multiple of 20, is unaffected by the rounding). -/
theorem C3_score_composition (es : List EvaluatedCandidate) :
    ∀ r ∈ OrchestratorAgent.rank_candidates es, ∃ e ∈ es,
      r = OrchestratorAgent.rank_one e ∧
      r.experience_score =
        100 * min (2 * (e.candidate_data.work_experience.length : ℚ) / 10) 1 ∧
      r.skills_match_score = round2 (e.skills_evaluation.match_score.getD 0 * 100) ∧
      r.cultural_fit_score =
        round2 (e.cultural_evaluation.cultural_fit_score.getD 0 * 100) ∧
      r.overall_score = round2 ((e.skills_evaluation.match_score.getD 0 * (6 / 10) +
        e.cultural_evaluation.cultural_fit_score.getD 0 * (3 / 10) +
        min (2 * (e.candidate_data.work_experience.length : ℚ) / 10) 1 * (1 / 10))
          * 100) := by
  intro r hr
  rw [OrchestratorAgent.rank_candidates, List.mem_mergeSort, List.mem_map] at hr
  obtain ⟨e, he, rfl⟩ := hr
  refine ⟨e, he, rfl, ?_, rank_one_skills_match_score e,
    rank_one_cultural_fit_score e, ?_⟩
  · rw [rank_one_experience_score, OrchestratorAgent.get_years_of_experience,
      round2_exp_exact]
  · rw [rank_one_overall_score, OrchestratorAgent.overall_raw,
      OrchestratorAgent.get_years_of_experience]
    have hc : config.SKILLS_WEIGHT = 6 / 10 := rfl
    have hc2 : config.CULTURAL_FIT_WEIGHT = 3 / 10 := rfl
    have hc3 : config.EXPERIENCE_WEIGHT = 1 / 10 := rfl
    rw [hc, hc2, hc3]
    ring_nf

theorem C3_score_composition_witness :
    (OrchestratorAgent.rank_one (evalOf 0 (3333 / 10000))).experience_score =
      100 * min (2 * ((evalOf 0 (3333 / 10000)).candidate_data.work_experience.length : ℚ)
        / 10) 1 := by
  obtain ⟨e, he, -, h, -⟩ := C3_score_composition [evalOf 0 (3333 / 10000)]
    (OrchestratorAgent.rank_one (evalOf 0 (3333 / 10000)))
    (by simp [OrchestratorAgent.rank_candidates])
  rw [List.mem_singleton] at he
  subst he
  exact h

/-- Claim C4 counterexample: a batch whose single parse task raised: the Phase-1
result element is tagged error and carries `resume_index` and the message,
but has no `id` key at all — contrary to the claim that every result,
including error results, carries the derived id `candidate_<index>`. -/
theorem C4_counterexample :
    OrchestratorAgent.parse_resumes_parallel [Except.error "boom"] =
      [{ status := "error", resume_index := 0, id := none, error := some "boom",
         candidate_data := none, message := none }] ∧
      (none : Option String) ≠ some (OrchestratorAgent.candidate_id 0) := by
  exact ⟨rfl, by simp⟩

/-- Claim C4 (amended): Phase 1 returns one element per input in input order
(all-settle): element `i` is a function of outcome `i` alone, carries
`resume_index = i`, and is tagged success or error (given that returned
parser dicts are so tagged, which the resume parser guarantees — final
conjunct).  A task that returned a dict gets `id = candidate_<i>`; a task
that raised yields an error element carrying the exception message but no
`id`. -/
theorem C4_parse_all_settle (results : List (Except String ParserOutput))
    (hok : ∀ r : ParserOutput, Except.ok r ∈ results →
      r.status = "success" ∨ r.status = "error") :
    (OrchestratorAgent.parse_resumes_parallel results).length = results.length ∧
    (∀ i (hi : i < results.length)
        (hi2 : i < (OrchestratorAgent.parse_resumes_parallel results).length),
      (OrchestratorAgent.parse_resumes_parallel results).get ⟨i, hi2⟩ =
        OrchestratorAgent.parse_combine i (results.get ⟨i, hi⟩) ∧
      ((OrchestratorAgent.parse_resumes_parallel results).get ⟨i, hi2⟩).resume_index = i ∧
      (((OrchestratorAgent.parse_resumes_parallel results).get ⟨i, hi2⟩).status = "success" ∨
        ((OrchestratorAgent.parse_resumes_parallel results).get ⟨i, hi2⟩).status = "error") ∧
      (∀ r, results.get ⟨i, hi⟩ = Except.ok r →
        ((OrchestratorAgent.parse_resumes_parallel results).get ⟨i, hi2⟩).id =
          some (OrchestratorAgent.candidate_id i)) ∧
      (∀ e, results.get ⟨i, hi⟩ = Except.error e →
        ((OrchestratorAgent.parse_resumes_parallel results).get ⟨i, hi2⟩).status = "error" ∧
        ((OrchestratorAgent.parse_resumes_parallel results).get ⟨i, hi2⟩).error = some e ∧
        ((OrchestratorAgent.parse_resumes_parallel results).get ⟨i, hi2⟩).id = none)) ∧
    (∀ (content : String) (gen : Except String String)
        (ext : String → Option CandidateData),
      (ResumeParserAgent.process content gen ext).1.status = "success" ∨
      (ResumeParserAgent.process content gen ext).1.status = "error") := by
  refine ⟨?_, ?_, ?_⟩
  · simp [OrchestratorAgent.parse_resumes_parallel, List.enum_eq_enumFrom]
  · intro i hi hi2
    have hget := parse_get results i hi hi2
    refine ⟨hget, ?_, ?_, ?_, ?_⟩
    · rw [hget]
      cases results.get ⟨i, hi⟩ <;> rfl
    · rw [hget]
      cases h : results.get ⟨i, hi⟩ with
      | error e => exact Or.inr rfl
      | ok r =>
        have hmem : Except.ok r ∈ results := h ▸ results.get_mem i hi
        rcases hok r hmem with hs | hs
        · exact Or.inl hs
        · exact Or.inr hs
    · intro r hr
      rw [hget, hr]
      rfl
    · intro e he
      rw [hget, he]
      exact ⟨rfl, rfl, rfl⟩
  · intro content gen ext
    unfold ResumeParserAgent.process
    split_ifs
    · exact Or.inr rfl
    · rcases gen with e | response
      · exact Or.inr rfl
      · rcases h : ext response with - | cd <;> simp [h]

theorem C4_parse_all_settle_witness :
    OrchestratorAgent.parse_resumes_parallel [Except.ok pOk, Except.error "x"] =
      [OrchestratorAgent.parse_combine 0 (Except.ok pOk),
        OrchestratorAgent.parse_combine 1 (Except.error "x")] := by
  have h := C4_parse_all_settle [Except.ok pOk, Except.error "x"]
    (by
      intro r hr
      simp only [List.mem_cons, List.not_mem_nil, or_false] at hr
      rcases hr with hr | hr
      · cases hr
        exact Or.inl rfl
      · cases hr)
  have h0 := (h.2.1 0 (by norm_num) (by rw [h.1]; norm_num)).1
  have h1 := (h.2.1 1 (by norm_num) (by rw [h.1]; norm_num)).1
  have hlen : (OrchestratorAgent.parse_resumes_parallel
      [Except.ok pOk, Except.error "x"]).length = 2 := by rw [h.1]; rfl
  apply List.ext_get (by rw [hlen]; rfl)
  intro n h1' h2'
  match n, h1' with
  | 0, _ => exact h0.trans rfl
  | 1, _ => exact h1.trans rfl

/-- Claim C5 counterexample: the Cultural-Fit agent called with non-empty
candidate data but an EMPTY job description does not return an immediate
error: it reaches the external generation call (second component `true`)
and, with a well-formed response, returns a success result. -/
theorem C5_counterexample :
    (CulturalFitAgent.process
        { candidate_data := some sampleCD, company_culture := none,
          job_description := none }
        (Except.ok "resp") (fun _ => some fitP)).2 = true ∧
      (CulturalFitAgent.process
        { candidate_data := some sampleCD, company_culture := none,
          job_description := none }
        (Except.ok "resp") (fun _ => some fitP)).1.status = "success" :=
  ⟨rfl, rfl⟩

/-- Claim C5 (amended): the Skills Matcher returns an immediate error result,
without reaching the external call, when candidate data OR job description
is empty; the Resume Parser does so on empty resume text; the Cultural-Fit
agent does so only on empty candidate data — with non-empty candidate data
it proceeds to the external call even when the job description is empty
(final conjunct). -/
theorem C5_empty_input_guards :
    (∀ (inp : SkillsMatcherAgent.Input) (gen : Except String String)
        (ext : String → Option SkillsMatcherAgent.MatchPayload),
      inp.candidate_data = none ∨ inp.job_description = none →
      (SkillsMatcherAgent.process inp gen ext).1.status = "error" ∧
      (SkillsMatcherAgent.process inp gen ext).2 = false) ∧
    (∀ (inp : CulturalFitAgent.Input) (gen : Except String String)
        (ext : String → Option CulturalFitAgent.FitPayload),
      inp.candidate_data = none →
      (CulturalFitAgent.process inp gen ext).1.status = "error" ∧
      (CulturalFitAgent.process inp gen ext).2 = false) ∧
    (∀ (gen : Except String String) (ext : String → Option CandidateData),
      (ResumeParserAgent.process "" gen ext).1.status = "error" ∧
      (ResumeParserAgent.process "" gen ext).2 = false) ∧
    (∀ (cd : CandidateData) (cc : Option CompanyCulture)
        (gen : Except String String) (ext : String → Option CulturalFitAgent.FitPayload),
      (CulturalFitAgent.process
        { candidate_data := some cd, company_culture := cc,
          job_description := none } gen ext).2 = true) := by
  refine ⟨?_, ?_, ?_, ?_⟩
  · rintro ⟨c, j⟩ gen ext h
    rcases c with - | cd
    · exact ⟨rfl, rfl⟩
    · rcases j with - | jd
      · exact ⟨rfl, rfl⟩
      · simp at h
  · rintro ⟨c, cc, j⟩ gen ext h
    simp only at h
    subst h
    exact ⟨rfl, rfl⟩
  · intro gen ext
    exact ⟨rfl, rfl⟩
  · intro cd cc gen ext
    rcases gen with e | response
    · rfl
    · rcases h : ext response with - | p <;>
        simp [CulturalFitAgent.process, h]

theorem C5_empty_input_guards_witness :
    (SkillsMatcherAgent.process
        { candidate_data := none, job_description := some "jd" }
        (Except.ok "r") (fun _ => none)).1.status = "error" ∧
      (SkillsMatcherAgent.process
        { candidate_data := none, job_description := some "jd" }
        (Except.ok "r") (fun _ => none)).2 = false :=
  C5_empty_input_guards.1 _ _ _ (Or.inl rfl)

/-- Claim C6: ranking is deterministic (a pure function of the evaluated set),
sorts the built records in non-increasing order of the `overall_score`
field, is a permutation of the pre-sort record sequence, and is stable:
records with equal `overall_score` keep their pre-sort (insertion) relative
order. -/
theorem C6_ranking_deterministic_stable (es : List EvaluatedCandidate) :
    OrchestratorAgent.rank_candidates es = OrchestratorAgent.rank_candidates es ∧
    (OrchestratorAgent.rank_candidates es).Pairwise
      (fun a b => b.overall_score ≤ a.overall_score) ∧
    (OrchestratorAgent.rank_candidates es).Perm
      (es.map OrchestratorAgent.rank_one) ∧
    ∀ a b : RankedCandidate,
      [a, b].Sublist (es.map OrchestratorAgent.rank_one) →
      a.overall_score = b.overall_score →
      [a, b].Sublist (OrchestratorAgent.rank_candidates es) := by
  refine ⟨rfl, ?_, ?_, ?_⟩
  · have h := @List.sorted_mergeSort RankedCandidate
      (fun a b : RankedCandidate => decide (b.overall_score ≤ a.overall_score))
      rank_le_trans rank_le_total (es.map OrchestratorAgent.rank_one)
    exact h.imp fun hab => by simpa using hab
  · exact List.mergeSort_perm _ _
  · intro a b hsub heq
    exact List.pair_sublist_mergeSort rank_le_trans rank_le_total
      (by simp [heq]) hsub

theorem C6_ranking_deterministic_stable_witness :
    [OrchestratorAgent.rank_one (evalOf (1 / 2) (1 / 2)),
      OrchestratorAgent.rank_one (evalOf2 (1 / 2) (1 / 2))].Sublist
      (OrchestratorAgent.rank_candidates
        [evalOf (1 / 2) (1 / 2), evalOf2 (1 / 2) (1 / 2)]) :=
  (C6_ranking_deterministic_stable [evalOf (1 / 2) (1 / 2), evalOf2 (1 / 2) (1 / 2)]).2.2.2
    _ _ (List.Sublist.refl _) rfl

/-- Claim C7: with an empty resume list or an empty job description, the
orchestrator returns a top-level error result with an explanatory message
and an empty ranked list, and its trace is idle: no parse or evaluation
task is launched, the ranking phase does not run, and the scheduler is not
invoked. -/
theorem C7_input_validation (input : OrchestratorInput) (env : PipelineEnv)
    (h : input.resumes = [] ∨ input.job_description = none) :
    (OrchestratorAgent.process input env).1.status = "error" ∧
    ((OrchestratorAgent.process input env).1.message = some "No resumes provided" ∨
      (OrchestratorAgent.process input env).1.message =
        some "No job description provided") ∧
    (OrchestratorAgent.process input env).1.ranked_candidates = [] ∧
    (OrchestratorAgent.process input env).2 = Trace.idle := by
  unfold OrchestratorAgent.process
  rcases h with h | h
  · simp [h]
  · rcases hr : input.resumes with - | ⟨a, rest⟩
    · simp
    · simp [hr, h]

theorem C7_input_validation_witness :
    (OrchestratorAgent.process
      { resumes := [], job_description := some "jd", company_culture := none,
        interviewer_email := "" } envTrivial).1.status = "error" :=
  (C7_input_validation
    { resumes := [], job_description := some "jd", company_culture := none,
      interviewer_email := "" } envTrivial (Or.inl rfl)).1

/-- Claim C8: the orchestrator's public entry point is total — every call returns
a result dict with a success-or-error status; the status is an error
exactly for the two batch-level validation failures (then with a message);
otherwise the status is success and per-item partial failures surface only
in the processing-summary counts (`successfully_parsed` counts exactly the
parse tasks that returned a success dict, and never exceeds
`total_resumes`). -/
theorem C8_entry_point_total (input : OrchestratorInput) (env : PipelineEnv) :
    ((OrchestratorAgent.process input env).1.status = "success" ∨
      (OrchestratorAgent.process input env).1.status = "error") ∧
    ((OrchestratorAgent.process input env).1.status = "error" ↔
      input.resumes = [] ∨ input.job_description = none) ∧
    ((OrchestratorAgent.process input env).1.status = "error" →
      ∃ m, (OrchestratorAgent.process input env).1.message = some m) ∧
    (input.resumes ≠ [] → input.job_description ≠ none →
      (OrchestratorAgent.process input env).1.status = "success" ∧
      ∃ s, (OrchestratorAgent.process input env).1.processing_summary = some s ∧
        s.total_resumes = input.resumes.length ∧
        s.successfully_parsed =
          ((List.range input.resumes.length).map env.parseRun).countP
            (fun o => match o with
              | Except.ok r => r.status == "success"
              | Except.error _ => false) ∧
        s.successfully_parsed ≤ s.total_resumes) := by
  rcases hr : input.resumes with - | ⟨a, rest⟩
  · unfold OrchestratorAgent.process
    simp [hr]
  · rcases hj : input.job_description with - | jd
    · unfold OrchestratorAgent.process
      simp [hr, hj]
    · have hcount := parsed_success_count
        ((List.range input.resumes.length).map env.parseRun)
      unfold OrchestratorAgent.process
      rw [hr, hj]
      simp only [List.isEmpty_cons, Bool.false_eq_true, if_false,
        Option.isNone_some]
      refine ⟨by simp, by simp, by simp, ?_⟩
      intro h1 h2
      refine ⟨by trivial, _, rfl, rfl, ?_, ?_⟩
      · rw [hr] at hcount
        exact hcount
      · show (List.filter (fun c => c.status == "success")
            (OrchestratorAgent.parse_resumes_parallel
              ((List.range (a :: rest).length).map env.parseRun))).length ≤
          (a :: rest).length
        calc (List.filter (fun c => c.status == "success")
              (OrchestratorAgent.parse_resumes_parallel
                ((List.range (a :: rest).length).map env.parseRun))).length
            ≤ (OrchestratorAgent.parse_resumes_parallel
                ((List.range (a :: rest).length).map env.parseRun)).length :=
              List.length_filter_le _ _
          _ = (a :: rest).length := by
              simp [OrchestratorAgent.parse_resumes_parallel,
                List.enum_eq_enumFrom]

theorem C8_entry_point_total_witness :
    (OrchestratorAgent.process
      { resumes := ["resume text"], job_description := some "jd",
        company_culture := none, interviewer_email := "" } envTrivial).1.status
      = "success" :=
  ((C8_entry_point_total
    { resumes := ["resume text"], job_description := some "jd",
      company_culture := none, interviewer_email := "" } envTrivial).2.2.2
    (by simp) (by simp)).1

/-- Claim C9 counterexample: a candidate whose invitation email fails is NOT
skipped: the email failure is swallowed inside
`_send_interview_invitation`, the candidate still appears in
`scheduled_slots`, and the agent returns success. -/
theorem C9_counterexample :
    stepEmailFail.send_email = Except.error "smtp down" ∧
      (InterviewSchedulerAgent.process [rcStrong] "boss@example.com"
        (fun _ => stepEmailFail)).status = "success" ∧
      ((InterviewSchedulerAgent.process [rcStrong] "boss@example.com"
        (fun _ => stepEmailFail)).scheduled_slots.map fun s => s.candidate_id) =
        [some "candidate_0"] :=
  ⟨rfl, rfl, rfl⟩

/-- Claim C9 (amended): per-candidate scheduling failures (no free slot, or a
calendar `create_event` error) skip only that candidate and never abort the
loop: every per-candidate success lands in `scheduled_slots` regardless of
the other candidates' outcomes, and the agent always returns a success
status.  An email failure, however, does not skip its candidate: it leaves
the per-candidate outcome unchanged (final conjunct). -/
theorem C9_no_cascade (candidates : List RankedCandidate) (email : String)
    (env : Nat → SchedStep) :
    (InterviewSchedulerAgent.process candidates email env).status = "success" ∧
    (∀ i (hi : i < candidates.length) (s : ScheduledSlot),
      InterviewSchedulerAgent.schedule_one (candidates.get ⟨i, hi⟩) (env i) = some s →
      s ∈ (InterviewSchedulerAgent.process candidates email env).scheduled_slots) ∧
    (∀ (c : RankedCandidate) (step : SchedStep), step.slots = [] →
      InterviewSchedulerAgent.schedule_one c step = none) ∧
    (∀ (c : RankedCandidate) (step : SchedStep) (e : String),
      step.create_event = Except.error e →
      InterviewSchedulerAgent.schedule_one c step = none) ∧
    (∀ (c : RankedCandidate) (step : SchedStep) (e : String),
      InterviewSchedulerAgent.schedule_one c
          { step with send_email := Except.error e } =
        InterviewSchedulerAgent.schedule_one c step) := by
  refine ⟨?_, ?_, ?_, ?_, ?_⟩
  · unfold InterviewSchedulerAgent.process
    split <;> rfl
  · intro i hi s hs
    have hne : candidates.isEmpty = false :=
      List.isEmpty_eq_false.mpr (List.ne_nil_of_mem (candidates.get_mem i hi))
    unfold InterviewSchedulerAgent.process
    simp only [hne, Bool.false_eq_true, if_false]
    have hlen : i < candidates.enum.length := by
      simpa [List.enum_eq_enumFrom] using hi
    have hget : candidates.enum.get ⟨i, hlen⟩ = (i, candidates.get ⟨i, hi⟩) := by
      simp [List.enum_eq_enumFrom, List.get_eq_getElem, List.getElem_enumFrom]
    refine List.mem_filterMap.mpr ⟨(i, candidates.get ⟨i, hi⟩), ?_, hs⟩
    exact hget ▸ List.get_mem _ _ _
  · intro c step h
    unfold InterviewSchedulerAgent.schedule_one
    rw [h]
  · intro c step e h
    unfold InterviewSchedulerAgent.schedule_one
    rcases hs : step.slots with - | ⟨a, rest⟩
    · rfl
    · rw [h]
  · intro c step e
    unfold InterviewSchedulerAgent.schedule_one
    rcases hs : step.slots with - | ⟨a, rest⟩ <;> rfl

theorem C9_no_cascade_witness :
    ({ candidate_id := some "candidate_0", candidate_name := "Ada Lovelace",
       candidate_email := "ada@example.com", start_time := 100, end_time := 160,
       calendar_event_id := some "ev1", status := "scheduled" } : ScheduledSlot) ∈
      (InterviewSchedulerAgent.process [rcStrong, rcModerate] "boss@example.com"
        (fun i => if i = 0 then stepOk else stepEmailFail)).scheduled_slots :=
  (C9_no_cascade [rcStrong, rcModerate] "boss@example.com"
    (fun i => if i = 0 then stepOk else stepEmailFail)).2.1 0 (by norm_num) _ rfl

/-- Claim C10: Phase 2 drops a candidate only when its evaluation coroutine
raised: every returned pair is kept (first conjunct).  The Skills Matcher
and Cultural-Fit agents convert a raised external call into an error dict
that lacks the score key (second and third conjuncts), such a candidate is
still ranked (fourth conjunct), and the ranking defaults its absent scores
to 0, computing the overall score from zeros plus the experience term
(final conjunct). -/
theorem C10_agent_errors_not_dropped (valid : List ParsedCandidate)
    (evalRun : Nat → Except String (SkillsResult × CulturalResult)) :
    (∀ i (hi : i < valid.length) (pair : SkillsResult × CulturalResult),
      evalRun i = Except.ok pair →
      OrchestratorAgent.evaluate_single_candidate (valid.get ⟨i, hi⟩) pair ∈
        OrchestratorAgent.evaluate_candidates_parallel valid evalRun) ∧
    (∀ (inp : SkillsMatcherAgent.Input) (e : String)
        (ext : String → Option SkillsMatcherAgent.MatchPayload),
      (SkillsMatcherAgent.process inp (Except.error e) ext).1.status = "error" ∧
      (SkillsMatcherAgent.process inp (Except.error e) ext).1.match_score = none) ∧
    (∀ (inp : CulturalFitAgent.Input) (e : String)
        (ext : String → Option CulturalFitAgent.FitPayload),
      (CulturalFitAgent.process inp (Except.error e) ext).1.status = "error" ∧
      (CulturalFitAgent.process inp (Except.error e) ext).1.cultural_fit_score
        = none) ∧
    (∀ (e : EvaluatedCandidate) (es : List EvaluatedCandidate), e ∈ es →
      OrchestratorAgent.rank_one e ∈ OrchestratorAgent.rank_candidates es) ∧
    (∀ e : EvaluatedCandidate,
      e.skills_evaluation.match_score = none →
      e.cultural_evaluation.cultural_fit_score = none →
      (OrchestratorAgent.rank_one e).skills_match_score = 0 ∧
      (OrchestratorAgent.rank_one e).cultural_fit_score = 0 ∧
      (OrchestratorAgent.rank_one e).overall_score =
        round2 (min (OrchestratorAgent.get_years_of_experience e.candidate_data / 10) 1
          * (1 / 10) * 100)) := by
  refine ⟨?_, ?_, ?_, ?_, ?_⟩
  · intro i hi pair hpair
    have hlen : i < valid.enum.length := by
      simpa [List.enum_eq_enumFrom] using hi
    have hget : valid.enum.get ⟨i, hlen⟩ = (i, valid.get ⟨i, hi⟩) := by
      simp [List.enum_eq_enumFrom, List.get_eq_getElem, List.getElem_enumFrom]
    refine List.mem_filterMap.mpr ⟨(i, valid.get ⟨i, hi⟩), hget ▸ List.get_mem _ _ _, ?_⟩
    simp only [hpair]
  · rintro ⟨c, j⟩ e ext
    rcases c with - | cd
    · exact ⟨rfl, rfl⟩
    · rcases j with - | jd
      · exact ⟨rfl, rfl⟩
      · exact ⟨rfl, rfl⟩
  · rintro ⟨c, cc, j⟩ e ext
    rcases c with - | cd
    · exact ⟨rfl, rfl⟩
    · exact ⟨rfl, rfl⟩
  · intro e es he
    rw [OrchestratorAgent.rank_candidates, List.mem_mergeSort]
    exact List.mem_map_of_mem _ he
  · intro e h1 h2
    refine ⟨?_, ?_, ?_⟩
    · rw [rank_one_skills_match_score, h1]
      norm_num [round2, round_eq]
    · rw [rank_one_cultural_fit_score, h2]
      norm_num [round2, round_eq]
    · rw [rank_one_overall_score]
      have hraw : OrchestratorAgent.overall_raw e =
          min (OrchestratorAgent.get_years_of_experience e.candidate_data / 10) 1
            * (1 / 10) := by
        unfold OrchestratorAgent.overall_raw
        rw [h1, h2]
        norm_num
        exact Or.inl rfl
      rw [hraw]

theorem C10_agent_errors_not_dropped_witness :
    OrchestratorAgent.evaluate_single_candidate pc1 pairErr ∈
      OrchestratorAgent.evaluate_candidates_parallel [pc1]
        (fun _ => Except.ok pairErr) :=
  (C10_agent_errors_not_dropped [pc1] (fun _ => Except.ok pairErr)).1 0
    (by norm_num) pairErr rfl
